import Mathlib

set_option maxRecDepth 40000

/-!
Shallow embedding of the natural-language-to-GraphQL pipeline in
`src/services/nlQueryService.ts` (class `NLQueryService`): the validator
(`validateQuery`), the deterministic fallback translator (`parseWithPatterns`),
the corrector applied to model output (`convertWithOpenAI` post-processing),
the translator dispatch (`convertToGraphQL`), the executor error path
(`executeGraphQLQuery`) and the orchestrator (`processQuery`).

JavaScript strings are modelled as Lean `String`; the JS operations used by
the source (`String.prototype.includes`, `String.prototype.toLowerCase`,
`String.prototype.replace` with a string pattern or with the two concrete
global regexes appearing in the source, `String.prototype.split(' ')`,
`Array.prototype.find`, and the regex `(?:about|on|regarding)\s+(\w+)`)
are given executable definitions below.
-/

namespace NLQuery

/-- JS `needle` is a prefix of `hay` (on character lists). -/
def listPrefix : List Char → List Char → Bool
  | [], _ => true
  | _ :: _, [] => false
  | a :: as, b :: bs => a == b && listPrefix as bs

/-- JS `hay.includes(needle)` on character lists: `needle` occurs as a
contiguous substring of `hay`. -/
def containsSub (needle : List Char) : List Char → Bool
  | [] => listPrefix needle []
  | c :: t => listPrefix needle (c :: t) || containsSub needle t

/-- JS `hay.includes(pat)`. -/
def jsIncludes (hay pat : String) : Bool :=
  containsSub pat.data hay.data

/-- JS `s.toLowerCase()` (the source only ever lower-cases ASCII text). -/
def jsToLower (s : String) : String :=
  ⟨s.data.map Char.toLower⟩

/-- The whitespace class `\s` of JS regexes, restricted to the ASCII
whitespace characters that can occur in the source's inputs. -/
def isJsSpace (c : Char) : Bool :=
  c == ' ' || c == '\t' || c == '\n' || c == '\r' || c == '\x0b' || c == '\x0c'

/-- The word-character class `\w` of JS regexes: `[A-Za-z0-9_]`. -/
def isWordChar (c : Char) : Bool :=
  (decide ('a' ≤ c) && decide (c ≤ 'z')) ||
  (decide ('A' ≤ c) && decide (c ≤ 'Z')) ||
  (decide ('0' ≤ c) && decide (c ≤ '9')) ||
  c == '_'

/-- JS `s.split(' ')` (single-character separator; consecutive separators
produce empty fragments, as in JS). -/
def splitSpaceAux : List Char → List Char → List String
  | [], acc => [⟨acc.reverse⟩]
  | c :: rest, acc =>
    if c == ' ' then (⟨acc.reverse⟩ : String) :: splitSpaceAux rest []
    else splitSpaceAux rest (c :: acc)

/-- JS `s.split(' ')`. -/
def jsSplitSpace (s : String) : List String :=
  splitSpaceAux s.data []

/-! ## Validator (`validateQuery`) -/

/-- Result of `validateQuery`: `{ isValid: boolean; errors: string[] }`. -/
structure ValidationResult where
  isValid : Bool
  errors : List String
deriving DecidableEq, Repr

/-- The `allowedQueries` whitelist of `validateQuery`. -/
def allowedQueries : List String :=
  ["article", "articles", "searchArticles", "articleStats", "trendingArticles",
   "recommendedArticles", "categories", "category", "tags"]

/-- `validateQuery(query)`: the non-parsing whitelist lint of the query text.
Errors are accumulated in source order (root-operation check, required
parameters of `searchArticles` and `recommendedArticles`, scalar-selection
mistakes for `author` and `publishedAt`, and the deprecated `category:`
filter key). -/
def validateQuery (query : String) : ValidationResult :=
  let queryLower := jsToLower query
  let e1 :=
    if (allowedQueries.filter (fun q => jsIncludes queryLower (jsToLower q))).length = 0 then
      ["Query does not use any valid root query field"]
    else []
  let e2 :=
    if jsIncludes queryLower "searcharticles" && !jsIncludes queryLower "query:" then
      ["searchArticles requires a query parameter"]
    else []
  let e3 :=
    if jsIncludes queryLower "recommendedarticles" && !jsIncludes queryLower "articleid:" then
      ["recommendedArticles requires an articleId parameter"]
    else []
  let e4 :=
    if jsIncludes queryLower "author \x7b" || jsIncludes queryLower "author\x7b" then
      ["author is a String field, not an object - select it directly"]
    else []
  let e5 :=
    if jsIncludes queryLower "publishedat \x7b" || jsIncludes queryLower "publishedat\x7b" then
      ["publishedAt is a String field, not an object - select it directly"]
    else []
  let e6 :=
    if jsIncludes queryLower "category:" && !jsIncludes queryLower "categoryid:" then
      ["Use categoryId instead of category in filters"]
    else []
  let errors := e1 ++ e2 ++ e3 ++ e4 ++ e5 ++ e6
  { isValid := errors.length = 0, errors := errors }

/-! ## Structured queries and the fallback translator (`parseWithPatterns`) -/

/-- JSON-shaped variable values (`Record<string, any>` in the source). -/
inductive JValue where
  | str (s : String)
  | num (n : Int)
  | bool (b : Bool)
  | null
  | arr (xs : List JValue)
  | obj (fields : List (String × JValue))
deriving Repr

/-- A Structured Query: `{ query, variables?, explanation }` (the source's
`variables` field is named `varMap` here because `variables` is a reserved
token in Lean). -/
structure StructuredQuery where
  query : String
  varMap : Option (List (String × JValue)) := none
  explanation : String
deriving Repr

def trendingQueryText : String :=
  "
          query GetTrendingArticles {
            trendingArticles(limit: 10) {
              id
              title
              slug
              excerpt
              author
              publishedAt
              viewCount
              category {
                id
                name
              }
            }
          }
        "

def statsQueryText : String :=
  "
          query GetArticleStats {
            articleStats {
              totalCount
              averageWordCount
              averageReadingTime
              topAuthors {
                author
                articleCount
                averageSentiment
                totalViews
              }
              categoryBreakdown {
                category {
                  id
                  name
                  slug
                  description
                }
                count
                percentage
              }
              sentimentDistribution {
                positive
                neutral
                negative
                average
              }
            }
          }
        "

def searchQueryText : String :=
  "
          query SearchArticles($searchQuery: String!) {
            searchArticles(query: $searchQuery, limit: 10) {
              articles {
                id
                title
                slug
                excerpt
                author
                publishedAt
                viewCount
                category {
                  id
                  name
                }
                tags {
                  id
                  name
                }
              }
              totalCount
              facets {
                categories {
                  key
                  count
                }
                authors {
                  key
                  count
                }
                sources {
                  key
                  count
                }
              }
            }
          }
        "

def recentQueryText : String :=
  "
          query GetRecentArticles {
            articles(sort: { field: PUBLISHED_AT, order: DESC }, limit: 10) {
              id
              title
              slug
              excerpt
              author
              publishedAt
              viewCount
              category {
                id
                name
              }
            }
          }
        "

def categoriesQueryText : String :=
  "
          query GetCategories {
            categories {
              id
              name
              slug
              description
              articleCount
            }
          }
        "

def tagsQueryText : String :=
  "
          query GetTags {
            tags(limit: 20) {
              id
              name
              articleCount
            }
          }
        "

def defaultQueryText : String :=
  "
        query GetDefaultArticles {
          articles(limit: 10) {
            id
            title
            slug
            excerpt
            author
            publishedAt
            viewCount
            category {
              id
              name
            }
          }
        }
      "

/-- The stoplist of `parseWithPatterns`'s search branch. -/
def stopWords : List String :=
  ["find", "search", "articles", "about", "on", "the", "a", "an"]

/-- Try to match `alt` followed by `\s+(\w+)` at the head of `s`,
returning the captured word (the continuation of one alternative of the
regex `(?:about|on|regarding)\s+(\w+)`). `\s+` and `\w+` are greedy; the
two character classes are disjoint, so greedy matching is exact here. -/
def tryAltAt (alt : List Char) (s : List Char) : Option String :=
  if listPrefix alt s then
    let rest := s.drop alt.length
    let sp := rest.takeWhile isJsSpace
    if sp.length = 0 then none
    else
      let w := (rest.drop sp.length).takeWhile isWordChar
      if w.length = 0 then none else some ⟨w⟩
  else none

/-- Leftmost match of the JS regex `(?:about|on|regarding)\s+(\w+)`:
positions are scanned left to right and, at each position, the
alternatives are tried in the regex's order. Returns the first capture
group of the first match, i.e. what JS `query.match(...)[1]` yields. -/
def findAOR : List Char → Option String
  | [] => none
  | c :: rest =>
    ((tryAltAt "about".data (c :: rest)).orElse fun _ =>
      (tryAltAt "on".data (c :: rest)).orElse fun _ =>
        tryAltAt "regarding".data (c :: rest)).orElse fun _ =>
      findAOR rest

/-- `query.match(/(?:about|on|regarding)\s+(\w+)/)`, returning the capture. -/
def matchAOR (q : String) : Option String :=
  findAOR q.data

/-- The search term chosen when the about/on/regarding regex did not match:
`query.split(' ').find(w => !stopWords.includes(w)) || 'news'` — the first
space-separated fragment not in the stoplist, with JS falsiness sending
both a missing result and an empty fragment to `'news'`. -/
def fallbackSearchTerm (q : String) : String :=
  match (jsSplitSpace q).find? (fun w => !(stopWords.contains w)) with
  | some w => if w = "" then "news" else w
  | none => "news"

/-- `parseWithPatterns(nlQuery)`: the deterministic fallback translator.
Ordered pattern rules over the lower-cased input; first match wins; the
final branch returns the default "recent items" query. -/
def parseWithPatterns (nlQuery : String) : StructuredQuery :=
  let query := jsToLower nlQuery
  if jsIncludes query "trending" || jsIncludes query "popular" then
    { query := trendingQueryText
      explanation := "Fetching trending articles based on view count" }
  else if jsIncludes query "stats" || jsIncludes query "statistics" ||
      jsIncludes query "analytics" then
    { query := statsQueryText
      explanation := "Getting comprehensive statistics about articles" }
  else if (matchAOR query).isSome || jsIncludes query "find" ||
      jsIncludes query "search" then
    let searchTerm :=
      match matchAOR query with
      | some t => t
      | none => fallbackSearchTerm query
    { query := searchQueryText
      varMap := some [("searchQuery", JValue.str searchTerm)]
      explanation := "Searching for articles containing \"" ++ searchTerm ++ "\"" }
  else if jsIncludes query "recent" || jsIncludes query "latest" ||
      jsIncludes query "new" then
    { query := recentQueryText
      explanation := "Fetching the most recently published articles" }
  else if jsIncludes query "categories" || jsIncludes query "category" then
    { query := categoriesQueryText
      explanation := "Listing all available article categories" }
  else if jsIncludes query "tags" || jsIncludes query "tag" then
    { query := tagsQueryText
      explanation := "Listing popular article tags" }
  else
    { query := defaultQueryText
      explanation := "Fetching a general list of articles (default query)" }

/-! ## Corrector (post-processing inside `convertWithOpenAI`) -/

/-- JS `s.replace(pat, rep)` with a string pattern: replace the first
occurrence of `pat` only (the string unchanged when `pat` is absent). -/
def replaceFirstAux (pat rep : List Char) : List Char → List Char
  | [] => []
  | c :: rest =>
    if listPrefix pat (c :: rest) then rep ++ (c :: rest).drop pat.length
    else c :: replaceFirstAux pat rep rest

/-- JS `s.replace(pat, rep)` (string pattern, first occurrence). -/
def jsReplaceFirst (s pat rep : String) : String :=
  ⟨replaceFirstAux pat.data rep.data s.data⟩

/-- Match `\s*([^}]+)\s*\}` at the head of `r` (the text just after an
opening brace), returning the capture and the rest after the closing brace.
The match region always ends at the first `}`; the leading greedy `\s*`
takes the leading whitespace of the content except that `([^}]+)` must keep
at least one character, so the capture is the content with its leading
whitespace stripped (up to keeping one character). -/
def braceBlockMatch (r : List Char) : Option (List Char × List Char) :=
  let content := r.takeWhile (fun c => !(c == '}'))
  match r.drop content.length with
  | '}' :: rest =>
    if content.length = 0 then none
    else
      let j := min (content.takeWhile isJsSpace).length (content.length - 1)
      some (content.drop j, rest)
  | _ => none

/-- Match the regex `categories\s*\{\s*([^}]+)\s*\}` at the head of `s`;
on success return the replacement text `categories { $1 articleCount }`
and the remainder of the input after the match. -/
def matchCatAt (s : List Char) : Option (List Char × List Char) :=
  if listPrefix "categories".data s then
    let r1 := s.drop 10
    let ws := r1.takeWhile isJsSpace
    match r1.drop ws.length with
    | '{' :: r3 =>
      match braceBlockMatch r3 with
      | some (cap, rest) =>
        some ("categories \x7b ".data ++ cap ++ " articleCount \x7d".data, rest)
      | none => none
    | _ => none
  else none

/-- Match the regex `tags[^{]*\{\s*([^}]+)\s*\}` at the head of `s`;
on success return the replacement text `tags { $1 articleCount }` (the
`[^{]*` part is consumed but not reproduced) and the remainder. -/
def matchTagsAt (s : List Char) : Option (List Char × List Char) :=
  if listPrefix "tags".data s then
    let r1 := s.drop 4
    let mid := r1.takeWhile (fun c => !(c == '{'))
    match r1.drop mid.length with
    | '{' :: r3 =>
      match braceBlockMatch r3 with
      | some (cap, rest) =>
        some ("tags \x7b ".data ++ cap ++ " articleCount \x7d".data, rest)
      | none => none
    | _ => none
  else none

/-- JS `s.replace(regex-with-g-flag, rep)`: scan left to right; at a match,
emit the replacement and continue after the matched region; otherwise copy
one character. `fuel` bounds the recursion (every step consumes at least
one input character, so `s.length` fuel suffices). -/
def replaceGAux (m : List Char → Option (List Char × List Char)) :
    Nat → List Char → List Char
  | 0, s => s
  | _ + 1, [] => []
  | fuel + 1, c :: rest =>
    match m (c :: rest) with
    | some (rep, after) => rep ++ replaceGAux m fuel after
    | none => c :: replaceGAux m fuel rest

/-- Global regex replacement over a string. -/
def jsReplaceG (m : List Char → Option (List Char × List Char)) (s : String) :
    String :=
  ⟨replaceGAux m s.data.length s.data⟩

/-- Corrector rule 1: if `trendingArticles` is invoked without parameters,
insert the default limit (`if includes('trendingArticles') &&
!includes('trendingArticles(') then replace first occurrence`). -/
def fixTrendingLimit (q : String) : String :=
  if jsIncludes q "trendingArticles" && !jsIncludes q "trendingArticles(" then
    jsReplaceFirst q "trendingArticles" "trendingArticles(limit: 10)"
  else q

/-- Corrector rule 2: if the text mentions `categories` and nowhere contains
`articleCount`, rewrite every `categories` selection block to append
`articleCount`. -/
def fixCategoriesCount (q : String) : String :=
  if jsIncludes q "categories" && !jsIncludes q "articleCount" then
    jsReplaceG matchCatAt q
  else q

/-- Corrector rule 3: if the text mentions `tags` and nowhere contains
`articleCount`, rewrite every `tags … { … }` block to `tags { … articleCount }`. -/
def fixTagsCount (q : String) : String :=
  if jsIncludes q "tags" && !jsIncludes q "articleCount" then
    jsReplaceG matchTagsAt q
  else q

/-- The Corrector: the three rewrites applied in source order to the
model-generated query text. -/
def applyCorrections (q : String) : String :=
  fixTagsCount (fixCategoriesCount (fixTrendingLimit q))

/-! ## Model-backed translator, executor and orchestrator -/

/-- The `variables` field of the model's parsed JSON under
`z.record(z.any()).optional().nullable()`: it may be absent, `null`, or an
object. -/
inductive VarsField where
  | absent
  | nullv
  | records (m : List (String × JValue))

/-- `parsed.variables || undefined`: `null` (and absence) normalise to
`undefined`; an object — even an empty one — is kept. -/
def normVars : VarsField → Option (List (String × JValue))
  | .absent => none
  | .nullv => none
  | .records m => some m

/-- Outcome of the external call in `convertWithOpenAI` up to and including
`GraphQLQuerySchema.parse`: either some failure (service unreachable, the
answer not valid JSON, or the parsed JSON not matching the
`{query, variables?, explanation}` shape — all of which throw), or a
successfully parsed `{query, variables, explanation}` triple. -/
inductive ModelOutcome where
  | failure (msg : String)
  | parsed (query : String) (vars : VarsField) (explanation : String)

/-- `convertWithOpenAI(nlQuery)`: on a parsed model answer, apply the
Corrector to the query text and normalise `variables`; otherwise propagate
the failure. -/
def convertWithOpenAI (o : ModelOutcome) : Except String StructuredQuery :=
  match o with
  | .failure msg => .error msg
  | .parsed q v e =>
    .ok { query := applyCorrections q, varMap := normVars v, explanation := e }

/-- `convertToGraphQL(nlQuery)`: try the model-backed translator first and
fall back to `parseWithPatterns` on any failure. Never fails. -/
def convertToGraphQL (o : ModelOutcome) (nlQuery : String) : StructuredQuery :=
  match convertWithOpenAI o with
  | .ok q => q
  | .error _ => parseWithPatterns nlQuery

/-- What the GraphQL execution engine reports for one run: a (possibly
empty) error list and the result data (`result.errors` is non-empty exactly
when the engine failed; `graphql-js` never produces an empty `errors`
array). -/
structure EngineResult where
  errors : List String
  data : JValue

/-- `executeGraphQLQuery(query, variables)`: throw
`GraphQL execution error: <first error>` when the engine reported errors,
else return the data. -/
def executeGraphQLQuery (eng : EngineResult) : Except String JValue :=
  match eng.errors with
  | [] => .ok eng.data
  | e :: _ => .error ("GraphQL execution error: " ++ e)

/-- The caller-visible Result Envelope of `processQuery`. -/
structure ResultEnvelope where
  query : String
  interpretation : String
  graphqlQuery : String
  results : JValue
  executionTime : Nat

/-- `processQuery(naturalLanguageQuery)`: translate (with fallback),
validate (a failure throws `Generated query validation failed: …`),
execute, and wrap any thrown error once as
`Failed to process natural language query: <message>`. `o` is the external
model call's outcome, `eng` the engine's report for the final query, and
`elapsed` the measured wall-clock duration. -/
def processQuery (o : ModelOutcome) (eng : EngineResult) (elapsed : Nat)
    (naturalLanguageQuery : String) : Except String ResultEnvelope :=
  let graphqlQuery := convertToGraphQL o naturalLanguageQuery
  let validationResult := validateQuery graphqlQuery.query
  if validationResult.isValid then
    match executeGraphQLQuery eng with
    | .ok results =>
      .ok { query := naturalLanguageQuery
            interpretation := graphqlQuery.explanation
            graphqlQuery := graphqlQuery.query
            results := results
            executionTime := elapsed }
    | .error msg =>
      .error ("Failed to process natural language query: " ++ msg)
  else
    .error ("Failed to process natural language query: " ++
      "Generated query validation failed: " ++
      String.intercalate ", " validationResult.errors)

/-! ## Helper lemmas -/

theorem mem_iteList {α} (x : α) (c : Prop) [Decidable c] (l : List α) :
    (x ∈ if c then l else []) ↔ c ∧ x ∈ l := by
  split <;> simp_all

/-- The two fields of `validateQuery`'s result are computed from the same
error list. -/
theorem validateQuery_isValid_eq (q : String) :
    (validateQuery q).isValid = decide ((validateQuery q).errors.length = 0) :=
  rfl

theorem validateQuery_isValid_false_of_mem {q : String} {x : String}
    (h : x ∈ (validateQuery q).errors) : (validateQuery q).isValid = false := by
  rw [validateQuery_isValid_eq, decide_eq_false_iff_not]
  intro hlen
  rw [List.length_eq_zero] at hlen
  simp [hlen] at h

/-- Unfolding of the error list of `validateQuery`. -/
theorem validateQuery_errors_def (q : String) :
    (validateQuery q).errors =
      (if (allowedQueries.filter
            (fun n => jsIncludes (jsToLower q) (jsToLower n))).length = 0 then
        ["Query does not use any valid root query field"] else []) ++
      (if (jsIncludes (jsToLower q) "searcharticles" &&
            !jsIncludes (jsToLower q) "query:") = true then
        ["searchArticles requires a query parameter"] else []) ++
      (if (jsIncludes (jsToLower q) "recommendedarticles" &&
            !jsIncludes (jsToLower q) "articleid:") = true then
        ["recommendedArticles requires an articleId parameter"] else []) ++
      (if (jsIncludes (jsToLower q) "author \x7b" ||
            jsIncludes (jsToLower q) "author\x7b") = true then
        ["author is a String field, not an object - select it directly"] else []) ++
      (if (jsIncludes (jsToLower q) "publishedat \x7b" ||
            jsIncludes (jsToLower q) "publishedat\x7b") = true then
        ["publishedAt is a String field, not an object - select it directly"] else []) ++
      (if (jsIncludes (jsToLower q) "category:" &&
            !jsIncludes (jsToLower q) "categoryid:") = true then
        ["Use categoryId instead of category in filters"] else []) := by
  simp only [validateQuery, List.append_assoc]

theorem listPrefix_append (p : List Char) :
    ∀ s b : List Char, listPrefix p s = true → listPrefix p (s ++ b) = true := by
  induction p with
  | nil => intro s b _; rfl
  | cons a as ih =>
    intro s b h
    cases s with
    | nil => simp [listPrefix] at h
    | cons c cs =>
      simp only [listPrefix, Bool.and_eq_true] at h
      simp only [List.cons_append, listPrefix, Bool.and_eq_true]
      exact ⟨h.1, ih cs b h.2⟩

theorem containsSub_nil_needle (b : List Char) : containsSub [] b = true := by
  cases b <;> simp [containsSub, listPrefix]

theorem containsSub_cons (n : List Char) (c : Char) (t : List Char)
    (h : containsSub n t = true) : containsSub n (c :: t) = true := by
  simp [containsSub, h]

theorem containsSub_append_left (n : List Char) :
    ∀ a b : List Char, containsSub n a = true → containsSub n (a ++ b) = true := by
  intro a
  induction a with
  | nil =>
    intro b h
    cases n with
    | nil => exact containsSub_nil_needle b
    | cons x xs => simp [containsSub, listPrefix] at h
  | cons c cs ih =>
    intro b h
    simp only [containsSub, Bool.or_eq_true] at h
    rcases h with hp | hc
    · simp only [List.cons_append, containsSub, Bool.or_eq_true]
      exact Or.inl (listPrefix_append n (c :: cs) b hp)
    · rw [List.cons_append]
      exact containsSub_cons n c (cs ++ b) (ih b hc)

theorem containsSub_append_right (n : List Char) :
    ∀ a b : List Char, containsSub n b = true → containsSub n (a ++ b) = true := by
  intro a
  induction a with
  | nil => intro b h; exact h
  | cons c cs ih =>
    intro b h
    rw [List.cons_append]
    exact containsSub_cons n c (cs ++ b) (ih b h)

/-- After a first-occurrence replacement that did find the (non-empty)
pattern, anything contained in the replacement text is contained in the
result. -/
theorem containsSub_replaceFirstAux (pat rep sub : List Char) (hne : pat ≠ [])
    (hrep : containsSub sub rep = true) :
    ∀ s : List Char, containsSub pat s = true →
      containsSub sub (replaceFirstAux pat rep s) = true := by
  intro s
  induction s with
  | nil =>
    intro h
    cases pat with
    | nil => exact absurd rfl hne
    | cons x xs => simp [containsSub, listPrefix] at h
  | cons c cs ih =>
    intro h
    simp only [replaceFirstAux]
    by_cases hp : listPrefix pat (c :: cs) = true
    · rw [if_pos hp]
      exact containsSub_append_left sub rep _ hrep
    · rw [if_neg hp]
      simp only [containsSub, Bool.or_eq_true] at h
      rcases h with h1 | h2
      · exact absurd h1 hp
      · exact containsSub_cons sub c _ (ih h2)

/-- Global replacement either changes nothing or leaves a copy of whatever
every replacement text contains. -/
theorem replaceGAux_eq_or_contains
    (m : List Char → Option (List Char × List Char)) (needle : List Char)
    (hm : ∀ s r a, m s = some (r, a) → containsSub needle r = true) :
    ∀ (fuel : Nat) (s : List Char),
      replaceGAux m fuel s = s ∨
        containsSub needle (replaceGAux m fuel s) = true := by
  intro fuel
  induction fuel with
  | zero => intro s; exact Or.inl rfl
  | succ f ih =>
    intro s
    cases s with
    | nil => exact Or.inl rfl
    | cons c cs =>
      cases hms : m (c :: cs) with
      | some pr =>
        obtain ⟨r, a⟩ := pr
        refine Or.inr ?_
        simp only [replaceGAux, hms]
        exact containsSub_append_left needle r _ (hm _ _ _ hms)
      | none =>
        rcases ih cs with heq | hc
        · refine Or.inl ?_
          simp only [replaceGAux, hms, heq]
        · refine Or.inr ?_
          simp only [replaceGAux, hms]
          exact containsSub_cons needle c _ hc

/-- Every replacement text produced by the `categories` regex rule contains
`articleCount`. -/
theorem matchCatAt_contains (s r a : List Char)
    (h : matchCatAt s = some (r, a)) :
    containsSub "articleCount".data r = true := by
  unfold matchCatAt at h
  dsimp only at h
  split at h
  · split at h
    · split at h
      · obtain ⟨heq1, _⟩ := Prod.mk.injEq .. ▸ Option.some.injEq .. ▸ h
        rw [← heq1]
        exact containsSub_append_right _ _ _ (by decide)
      · exact absurd h (by simp)
    · exact absurd h (by simp)
  · exact absurd h (by simp)

/-- Every replacement text produced by the `tags` regex rule contains
`articleCount`. -/
theorem matchTagsAt_contains (s r a : List Char)
    (h : matchTagsAt s = some (r, a)) :
    containsSub "articleCount".data r = true := by
  unfold matchTagsAt at h
  dsimp only at h
  split at h
  · split at h
    · split at h
      · obtain ⟨heq1, _⟩ := Prod.mk.injEq .. ▸ Option.some.injEq .. ▸ h
        rw [← heq1]
        exact containsSub_append_right _ _ _ (by decide)
      · exact absurd h (by simp)
    · exact absurd h (by simp)
  · exact absurd h (by simp)


/-- Rule 1 of the Corrector inserts `trendingArticles(` whenever it fires. -/
theorem fixTrendingLimit_inserts (q : String)
    (hg : (jsIncludes q "trendingArticles" &&
           !jsIncludes q "trendingArticles(") = true) :
    jsIncludes (fixTrendingLimit q) "trendingArticles(" = true := by
  have h1 : fixTrendingLimit q =
      jsReplaceFirst q "trendingArticles" "trendingArticles(limit: 10)" := by
    unfold fixTrendingLimit
    rw [if_pos hg]
  rw [h1]
  have hq : containsSub "trendingArticles".data q.data = true :=
    (Bool.and_eq_true_iff.mp hg).1
  exact containsSub_replaceFirstAux "trendingArticles".data
    "trendingArticles(limit: 10)".data "trendingArticles(".data
    (by decide) (by decide) q.data hq

theorem fixTrendingLimit_idem (q : String) :
    fixTrendingLimit (fixTrendingLimit q) = fixTrendingLimit q := by
  by_cases hg : (jsIncludes q "trendingArticles" &&
      !jsIncludes q "trendingArticles(") = true
  · have hin := fixTrendingLimit_inserts q hg
    generalize fixTrendingLimit q = q' at hin ⊢
    unfold fixTrendingLimit
    rw [hin]
    simp
  · have h3 : fixTrendingLimit q = q := by
      unfold fixTrendingLimit
      rw [if_neg hg]
    rw [h3, h3]

theorem fixCategoriesCount_idem (q : String) :
    fixCategoriesCount (fixCategoriesCount q) = fixCategoriesCount q := by
  by_cases hg : (jsIncludes q "categories" && !jsIncludes q "articleCount") = true
  · have h1 : fixCategoriesCount q = jsReplaceG matchCatAt q := by
      unfold fixCategoriesCount
      rw [if_pos hg]
    rcases replaceGAux_eq_or_contains matchCatAt "articleCount".data
        matchCatAt_contains q.data.length q.data with heq | hc
    · have h2 : fixCategoriesCount q = q := by
        rw [h1]
        show (⟨replaceGAux matchCatAt q.data.length q.data⟩ : String) = q
        rw [heq]
      rw [h2, h2]
    · have hin : jsIncludes (fixCategoriesCount q) "articleCount" = true := by
        rw [h1]
        exact hc
      generalize fixCategoriesCount q = q' at hin ⊢
      unfold fixCategoriesCount
      rw [hin]
      simp
  · have h3 : fixCategoriesCount q = q := by
      unfold fixCategoriesCount
      rw [if_neg hg]
    rw [h3, h3]

theorem fixTagsCount_idem (q : String) :
    fixTagsCount (fixTagsCount q) = fixTagsCount q := by
  by_cases hg : (jsIncludes q "tags" && !jsIncludes q "articleCount") = true
  · have h1 : fixTagsCount q = jsReplaceG matchTagsAt q := by
      unfold fixTagsCount
      rw [if_pos hg]
    rcases replaceGAux_eq_or_contains matchTagsAt "articleCount".data
        matchTagsAt_contains q.data.length q.data with heq | hc
    · have h2 : fixTagsCount q = q := by
        rw [h1]
        show (⟨replaceGAux matchTagsAt q.data.length q.data⟩ : String) = q
        rw [heq]
      rw [h2, h2]
    · have hin : jsIncludes (fixTagsCount q) "articleCount" = true := by
        rw [h1]
        exact hc
      generalize fixTagsCount q = q' at hin ⊢
      unfold fixTagsCount
      rw [hin]
      simp
  · have h3 : fixTagsCount q = q := by
      unfold fixTagsCount
      rw [if_neg hg]
    rw [h3, h3]

/-! ## Claim theorems -/

/-- C5: for every query text in which a known-scalar field (`author`, and
likewise `publishedAt`) is followed immediately by the opening brace of a
selection block (`"author {"` or `"author{"` after lower-casing),
`validateQuery` returns `isValid = false` and its error list contains a
message naming that field and stating it is a scalar (String) field. -/
theorem claim_C5_scalar_selection_rejected (q : String) :
    ((jsIncludes (jsToLower q) "author \x7b" ||
        jsIncludes (jsToLower q) "author\x7b") = true →
      (validateQuery q).isValid = false ∧
      "author is a String field, not an object - select it directly" ∈
        (validateQuery q).errors) ∧
    ((jsIncludes (jsToLower q) "publishedat \x7b" ||
        jsIncludes (jsToLower q) "publishedat\x7b") = true →
      (validateQuery q).isValid = false ∧
      "publishedAt is a String field, not an object - select it directly" ∈
        (validateQuery q).errors) := by
  constructor
  · intro h
    have hmem : "author is a String field, not an object - select it directly" ∈
        (validateQuery q).errors := by
      rw [validateQuery_errors_def]
      simp [mem_iteList, h]
    exact ⟨validateQuery_isValid_false_of_mem hmem, hmem⟩
  · intro h
    have hmem : "publishedAt is a String field, not an object - select it directly" ∈
        (validateQuery q).errors := by
      rw [validateQuery_errors_def]
      simp [mem_iteList, h]
    exact ⟨validateQuery_isValid_false_of_mem hmem, hmem⟩

/-- C5 witness: a concrete query selecting subfields of `author` is
rejected with the scalar-field error. -/
theorem claim_C5_witness :
    (validateQuery "query { articles { author { name } } }").isValid = false ∧
    "author is a String field, not an object - select it directly" ∈
      (validateQuery "query { articles { author { name } } }").errors :=
  (claim_C5_scalar_selection_rejected
    "query { articles { author { name } } }").1 (by decide)

/-- C6: for every query text that uses the deprecated relation filter key
`category:` and not its identifier-based replacement `categoryId:`,
`validateQuery` returns `isValid = false` and its error list names the
replacement. -/
theorem claim_C6_deprecated_filter_rejected (q : String)
    (h1 : jsIncludes (jsToLower q) "category:" = true)
    (h2 : jsIncludes (jsToLower q) "categoryid:" = false) :
    (validateQuery q).isValid = false ∧
    "Use categoryId instead of category in filters" ∈ (validateQuery q).errors := by
  have hmem : "Use categoryId instead of category in filters" ∈
      (validateQuery q).errors := by
    rw [validateQuery_errors_def]
    simp [mem_iteList, h1, h2]
  exact ⟨validateQuery_isValid_false_of_mem hmem, hmem⟩

/-- C6 witness: a concrete query filtering by `category:` is rejected with
the message naming `categoryId`. -/
theorem claim_C6_witness :
    (validateQuery "query { articles(filter: { category: tech }) { id } }").isValid
      = false ∧
    "Use categoryId instead of category in filters" ∈
      (validateQuery "query { articles(filter: { category: tech }) { id } }").errors :=
  claim_C6_deprecated_filter_rejected
    "query { articles(filter: { category: tech }) { id } }" (by decide) (by decide)

/-- The root-operation error is reported exactly when no allowed operation
name occurs (case-insensitively) in the query text. -/
theorem noRoot_error_iff (q : String) :
    "Query does not use any valid root query field" ∈ (validateQuery q).errors ↔
      ∀ name ∈ allowedQueries,
        jsIncludes (jsToLower q) (jsToLower name) = false := by
  rw [validateQuery_errors_def]
  simp [mem_iteList, List.length_eq_zero, List.filter_eq_nil_iff]

/-- C9 counterexample: the claim says any text containing `"tag"` passes the
root-operation check, but the whitelist only contains `"tags"`: the input
`"tag"` contains `"tag"` yet is rejected with the root-operation error. -/
theorem claim_C9_counterexample :
    jsIncludes (jsToLower "tag") "tag" = true ∧
    "Query does not use any valid root query field" ∈
      (validateQuery "tag").errors := by
  constructor
  · decide
  · rw [validateQuery_errors_def]
    simp [mem_iteList]
    decide

/-- C9 (amended): the root-operation check is a case-insensitive substring
test — the error is produced iff none of the nine allowed operation names
occurs case-insensitively in the query text; consequently any text
containing `"article"` or `"tags"` (for example only within the field name
`articleCount`) passes this check, so a query invoking an unrecognized
root operation alongside such a substring is never rejected by it. -/
theorem claim_C9_root_check_characterisation (q : String) :
    ("Query does not use any valid root query field" ∈ (validateQuery q).errors ↔
      ∀ name ∈ allowedQueries,
        jsIncludes (jsToLower q) (jsToLower name) = false) ∧
    ((jsIncludes (jsToLower q) "article" || jsIncludes (jsToLower q) "tags") = true →
      "Query does not use any valid root query field" ∉ (validateQuery q).errors) := by
  refine ⟨noRoot_error_iff q, fun h hmem => ?_⟩
  rw [noRoot_error_iff q] at hmem
  rcases Bool.or_eq_true_iff.mp h with ha | ht
  · have := hmem "article" (by decide)
    rw [show jsToLower "article" = "article" from rfl] at this
    simp [this] at ha
  · have := hmem "tags" (by decide)
    rw [show jsToLower "tags" = "tags" from rfl] at this
    simp [this] at ht

/-- C9 witness: a query whose only brush with the whitelist is the substring
`article` inside `articleCount` passes the root-operation check. -/
theorem claim_C9_witness :
    "Query does not use any valid root query field" ∉
      (validateQuery "query { somethingElse { articleCount } }").errors :=
  (claim_C9_root_check_characterisation
    "query { somethingElse { articleCount } }").2 (by decide)

/-- C2: for every input whose lower-casing contains `"trending"` or
`"popular"`, the fallback translator returns the fixed `trendingArticles`
query, whose text invokes `trendingArticles` with the non-empty default
limit argument `(limit: 10)`, and `validateQuery` accepts that text. -/
theorem claim_C2_trending_pattern (s : String)
    (h : (jsIncludes (jsToLower s) "trending" ||
          jsIncludes (jsToLower s) "popular") = true) :
    (parseWithPatterns s).query = trendingQueryText ∧
    jsIncludes (parseWithPatterns s).query "trendingArticles(limit: 10)" = true ∧
    (validateQuery (parseWithPatterns s).query).isValid = true := by
  simp only [parseWithPatterns, h, if_true]
  exact ⟨trivial, by decide, by decide⟩

/-- C2 witness at the input `"Show me trending articles"`. -/
theorem claim_C2_witness :
    (parseWithPatterns "Show me trending articles").query = trendingQueryText ∧
    jsIncludes (parseWithPatterns "Show me trending articles").query
      "trendingArticles(limit: 10)" = true ∧
    (validateQuery (parseWithPatterns "Show me trending articles").query).isValid
      = true :=
  claim_C2_trending_pattern "Show me trending articles" (by decide)

/-- C3 counterexample: the claim says the extracted search term preserves
the original case of `X`, but `parseWithPatterns` matches the
about/on/regarding regex against the already lower-cased input: on
`"articles about Climate"` the variable mapping carries `"climate"`, not
`"Climate"`. -/
theorem claim_C3_counterexample :
    (parseWithPatterns "articles about Climate").varMap =
      some [("searchQuery", JValue.str "climate")] ∧
    ("climate" : String) ≠ "Climate" :=
  ⟨rfl, by decide⟩

/-- C3 (amended): for every input reaching the search rule whose lower-cased
text matches the `about/on/regarding X` pattern, the returned variable
mapping's search term equals the capture `X` taken from the lower-cased
text — lower-casing is applied before extraction, so the extracted value is
the lower-cased form of the original `X`, not its original case. -/
theorem claim_C3_search_term_lowercased (s t : String)
    (h1 : (jsIncludes (jsToLower s) "trending" ||
           jsIncludes (jsToLower s) "popular") = false)
    (h2 : (jsIncludes (jsToLower s) "stats" ||
           jsIncludes (jsToLower s) "statistics" ||
           jsIncludes (jsToLower s) "analytics") = false)
    (h3 : matchAOR (jsToLower s) = some t) :
    (parseWithPatterns s).varMap = some [("searchQuery", JValue.str t)] ∧
    (parseWithPatterns s).explanation =
      "Searching for articles containing \"" ++ t ++ "\"" := by
  simp only [parseWithPatterns, h1, h2, h3, Option.isSome_some, Bool.true_or,
    if_true, if_false, Bool.false_eq_true, ite_false, ite_true]
  refine ⟨?_, ?_⟩ <;> first | rfl | trivial

/-- C3 witness at the input `"articles about Climate"` with the lower-cased
capture `"climate"`. -/
theorem claim_C3_witness :
    (parseWithPatterns "articles about Climate").varMap =
      some [("searchQuery", JValue.str "climate")] ∧
    (parseWithPatterns "articles about Climate").explanation =
      "Searching for articles containing \"climate\"" :=
  claim_C3_search_term_lowercased "articles about Climate" "climate"
    (by decide) (by decide) rfl

/-- A string with a non-empty left part stays non-empty under append. -/
theorem str_append_ne_empty (a b : String) (h : a ≠ "") : a ++ b ≠ "" := by
  intro hab
  have hd := congrArg String.data hab
  rw [String.data_append] at hd
  exact h (String.ext (List.append_eq_nil.mp hd).1)

/-- Every branch of the fallback translator yields a non-empty query text
and a non-empty explanation. -/
theorem parseWithPatterns_nonempty (s : String) :
    (parseWithPatterns s).query ≠ "" ∧ (parseWithPatterns s).explanation ≠ "" := by
  unfold parseWithPatterns
  by_cases h1 : (jsIncludes (jsToLower s) "trending" ||
      jsIncludes (jsToLower s) "popular") = true
  · rw [if_pos h1]; exact ⟨by decide, by decide⟩
  · rw [if_neg h1]
    by_cases h2 : (jsIncludes (jsToLower s) "stats" ||
        jsIncludes (jsToLower s) "statistics" ||
        jsIncludes (jsToLower s) "analytics") = true
    · rw [if_pos h2]; exact ⟨by decide, by decide⟩
    · rw [if_neg h2]
      by_cases h3 : ((matchAOR (jsToLower s)).isSome ||
          jsIncludes (jsToLower s) "find" ||
          jsIncludes (jsToLower s) "search") = true
      · rw [if_pos h3]
        exact ⟨show searchQueryText ≠ "" by decide, str_append_ne_empty _ _
          (str_append_ne_empty _ _ (by decide))⟩
      · rw [if_neg h3]
        by_cases h4 : (jsIncludes (jsToLower s) "recent" ||
            jsIncludes (jsToLower s) "latest" ||
            jsIncludes (jsToLower s) "new") = true
        · rw [if_pos h4]; exact ⟨by decide, by decide⟩
        · rw [if_neg h4]
          by_cases h5 : (jsIncludes (jsToLower s) "categories" ||
              jsIncludes (jsToLower s) "category") = true
          · rw [if_pos h5]; exact ⟨by decide, by decide⟩
          · rw [if_neg h5]
            by_cases h6 : (jsIncludes (jsToLower s) "tags" ||
                jsIncludes (jsToLower s) "tag") = true
            · rw [if_pos h6]; exact ⟨by decide, by decide⟩
            · rw [if_neg h6]; exact ⟨by decide, by decide⟩

/-- C4: the fallback translator is total — for every input it returns a
Structured Query with non-empty query text and explanation — and when no
pattern rule matches it returns the fixed default "recent items" query
(the `articles(limit: 10)` template). -/
theorem claim_C4_fallback_total_and_default (s : String) :
    ((parseWithPatterns s).query ≠ "" ∧ (parseWithPatterns s).explanation ≠ "") ∧
    ((jsIncludes (jsToLower s) "trending" ||
        jsIncludes (jsToLower s) "popular") = false →
     (jsIncludes (jsToLower s) "stats" ||
        jsIncludes (jsToLower s) "statistics" ||
        jsIncludes (jsToLower s) "analytics") = false →
     ((matchAOR (jsToLower s)).isSome ||
        jsIncludes (jsToLower s) "find" ||
        jsIncludes (jsToLower s) "search") = false →
     (jsIncludes (jsToLower s) "recent" ||
        jsIncludes (jsToLower s) "latest" ||
        jsIncludes (jsToLower s) "new") = false →
     (jsIncludes (jsToLower s) "categories" ||
        jsIncludes (jsToLower s) "category") = false →
     (jsIncludes (jsToLower s) "tags" ||
        jsIncludes (jsToLower s) "tag") = false →
     parseWithPatterns s =
       { query := defaultQueryText
         explanation := "Fetching a general list of articles (default query)" }) := by
  constructor
  · exact parseWithPatterns_nonempty s
  · intro h1 h2 h3 h4 h5 h6
    simp only [parseWithPatterns, h1, h2, h3, h4, h5, h6, Bool.false_eq_true,
      if_false, ite_false]

/-- C4 witness: `"hello world"` matches no rule and yields the default
query. -/
theorem claim_C4_witness :
    parseWithPatterns "hello world" =
      { query := defaultQueryText
        explanation := "Fetching a general list of articles (default query)" } :=
  (claim_C4_fallback_total_and_default "hello world").2
    (by decide) (by decide) (by decide) (by decide) (by decide) (by decide)

/-- The seven canned query texts of the fallback translator. -/
def fallbackTemplates : List String :=
  [trendingQueryText, statsQueryText, searchQueryText, recentQueryText,
   categoriesQueryText, tagsQueryText, defaultQueryText]

/-- The fallback translator's query text is always one of the seven
templates. -/
theorem parseWithPatterns_query_mem (s : String) :
    (parseWithPatterns s).query ∈ fallbackTemplates := by
  unfold parseWithPatterns
  by_cases h1 : (jsIncludes (jsToLower s) "trending" ||
      jsIncludes (jsToLower s) "popular") = true
  · rw [if_pos h1]; exact show trendingQueryText ∈ fallbackTemplates by decide
  · rw [if_neg h1]
    by_cases h2 : (jsIncludes (jsToLower s) "stats" ||
        jsIncludes (jsToLower s) "statistics" ||
        jsIncludes (jsToLower s) "analytics") = true
    · rw [if_pos h2]; exact show statsQueryText ∈ fallbackTemplates by decide
    · rw [if_neg h2]
      by_cases h3 : ((matchAOR (jsToLower s)).isSome ||
          jsIncludes (jsToLower s) "find" ||
          jsIncludes (jsToLower s) "search") = true
      · rw [if_pos h3]; exact show searchQueryText ∈ fallbackTemplates by decide
      · rw [if_neg h3]
        by_cases h4 : (jsIncludes (jsToLower s) "recent" ||
            jsIncludes (jsToLower s) "latest" ||
            jsIncludes (jsToLower s) "new") = true
        · rw [if_pos h4]; exact show recentQueryText ∈ fallbackTemplates by decide
        · rw [if_neg h4]
          by_cases h5 : (jsIncludes (jsToLower s) "categories" ||
              jsIncludes (jsToLower s) "category") = true
          · rw [if_pos h5]
            exact show categoriesQueryText ∈ fallbackTemplates by decide
          · rw [if_neg h5]
            by_cases h6 : (jsIncludes (jsToLower s) "tags" ||
                jsIncludes (jsToLower s) "tag") = true
            · rw [if_pos h6]
              exact show tagsQueryText ∈ fallbackTemplates by decide
            · rw [if_neg h6]
              exact show defaultQueryText ∈ fallbackTemplates by decide

/-- Every query text the fallback translator can produce passes the
validator. -/
theorem fallback_always_valid (nl : String) :
    (validateQuery (parseWithPatterns nl).query).isValid = true := by
  have h := parseWithPatterns_query_mem nl
  simp only [fallbackTemplates, List.mem_cons, List.mem_singleton,
    List.not_mem_nil, or_false] at h
  rcases h with h | h | h | h | h | h | h <;> rw [h] <;> decide

/-- C1: whenever the model-backed translator fails (service error, invalid
JSON, or schema-shape mismatch — all summarised by `ModelOutcome.failure`),
`convertToGraphQL` returns exactly the fallback translator's result, the
fallback query always passes validation, and — the engine reporting no
errors — `processQuery` returns a complete Result Envelope whose
interpretation is the fallback explanation: no translation error escapes
to the caller. -/
theorem claim_C1_model_failure_falls_back
    (msg nl : String) (eng : EngineResult) (t : Nat) (h : eng.errors = []) :
    convertToGraphQL (.failure msg) nl = parseWithPatterns nl ∧
    (validateQuery (parseWithPatterns nl).query).isValid = true ∧
    processQuery (.failure msg) eng t nl =
      .ok { query := nl
            interpretation := (parseWithPatterns nl).explanation
            graphqlQuery := (parseWithPatterns nl).query
            results := eng.data
            executionTime := t } := by
  obtain ⟨errs, data⟩ := eng
  obtain rfl : errs = [] := h
  refine ⟨rfl, fallback_always_valid nl, ?_⟩
  have hconv : convertToGraphQL (.failure msg) nl = parseWithPatterns nl := rfl
  simp only [processQuery, executeGraphQLQuery, hconv, fallback_always_valid nl,
    if_true]

/-- C1 witness at a concrete failing model call and successful engine run. -/
theorem claim_C1_witness :
    convertToGraphQL (.failure "parse error") "hello pipeline" =
      parseWithPatterns "hello pipeline" ∧
    (validateQuery (parseWithPatterns "hello pipeline").query).isValid = true ∧
    processQuery (.failure "parse error") ⟨[], JValue.null⟩ 7 "hello pipeline" =
      .ok { query := "hello pipeline"
            interpretation := (parseWithPatterns "hello pipeline").explanation
            graphqlQuery := (parseWithPatterns "hello pipeline").query
            results := JValue.null
            executionTime := 7 } :=
  claim_C1_model_failure_falls_back "parse error" "hello pipeline"
    ⟨[], JValue.null⟩ 7 rfl

/-- C7: when the engine reports a non-empty error list,
`executeGraphQLQuery` raises a single error containing only the first
engine error's message (later errors are dropped), and — the query having
validated — `processQuery` surfaces exactly that one message, wrapped once,
with no result data. -/
theorem claim_C7_first_engine_error_surfaced
    (o : ModelOutcome) (nl : String) (dat : JValue) (t : Nat)
    (e : String) (es : List String)
    (hv : (validateQuery (convertToGraphQL o nl).query).isValid = true) :
    executeGraphQLQuery ⟨e :: es, dat⟩ =
      .error ("GraphQL execution error: " ++ e) ∧
    processQuery o ⟨e :: es, dat⟩ t nl =
      .error ("Failed to process natural language query: GraphQL execution error: "
        ++ e) := by
  refine ⟨rfl, ?_⟩
  simp only [processQuery, executeGraphQLQuery, hv, if_true]
  rfl

/-- C7 witness: two engine errors, only the first surfaced. -/
theorem claim_C7_witness :
    executeGraphQLQuery ⟨["boom", "later"], JValue.null⟩ =
      .error ("GraphQL execution error: " ++ "boom") ∧
    processQuery (.failure "svc down") ⟨["boom", "later"], JValue.null⟩ 3
        "hello graphql" =
      .error ("Failed to process natural language query: GraphQL execution error: "
        ++ "boom") :=
  claim_C7_first_engine_error_surfaced (.failure "svc down") "hello graphql"
    JValue.null 3 "boom" ["later"] (by decide)


/-- C8: each Corrector rewrite is independently idempotent — applying the
`trendingArticles` default-limit insertion, the `categories` `articleCount`
insertion, or the `tags` `articleCount` insertion a second time to its own
output changes nothing — and the Corrector runs only on the model-backed
translator's parsed output: on the fallback path `convertToGraphQL` returns
`parseWithPatterns`' result untouched. -/
theorem claim_C8_corrector_idempotent_and_scoped :
    (∀ q : String, fixTrendingLimit (fixTrendingLimit q) = fixTrendingLimit q) ∧
    (∀ q : String,
      fixCategoriesCount (fixCategoriesCount q) = fixCategoriesCount q) ∧
    (∀ q : String, fixTagsCount (fixTagsCount q) = fixTagsCount q) ∧
    (∀ (q : String) (v : VarsField) (e : String),
      convertWithOpenAI (.parsed q v e) =
        .ok { query := applyCorrections q, varMap := normVars v,
              explanation := e }) ∧
    (∀ msg nl : String,
      convertToGraphQL (.failure msg) nl = parseWithPatterns nl) :=
  ⟨fixTrendingLimit_idem, fixCategoriesCount_idem, fixTagsCount_idem,
   fun _ _ _ => rfl, fun _ _ => rfl⟩

/-- C10: the Corrector's `articleCount` insertions are guarded by a
whole-query substring test — any model-generated text already containing
`articleCount` anywhere (for instance because the preceding `categories`
rule inserted it) is returned unchanged by both the `categories` rule and
the `tags` rule, whatever its selection blocks still lack. -/
theorem claim_C10_articleCount_guard_whole_query (q : String)
    (h : jsIncludes q "articleCount" = true) :
    fixCategoriesCount q = q ∧ fixTagsCount q = q := by
  constructor
  · unfold fixCategoriesCount
    rw [h]
    simp
  · unfold fixTagsCount
    rw [h]
    simp

/-- C10 witness: a text whose `categories` block carries `articleCount`
but whose `tags` block does not is left unchanged by both rules. -/
theorem claim_C10_witness :
    fixCategoriesCount
        "query { categories { name articleCount } tags(limit: 5) { id name } }" =
      "query { categories { name articleCount } tags(limit: 5) { id name } }" ∧
    fixTagsCount
        "query { categories { name articleCount } tags(limit: 5) { id name } }" =
      "query { categories { name articleCount } tags(limit: 5) { id name } }" :=
  claim_C10_articleCount_guard_whole_query
    "query { categories { name articleCount } tags(limit: 5) { id name } }"
    (by decide)

end NLQuery
